import Mathlib

/-!
Verification of the claims financial derivation and aggregation pipeline of
the insurance-claims dashboard (dashboard.py).

The embedding models the pipeline stages of the script:
column validation (lines 20-25), column-name stripping (line 28), numeric
coercion of the nine amount columns (lines 31-35), date parsing and row
dropping (lines 38-39), date-part extraction (lines 42-44), the four derived
total columns (lines 47-50), the ALL-wildcard filter resolution (lines
63-71), the monthly paid matrix and the summary table (lines 74-84), and the
export/cleanup control flow (lines 209-219).

Currency amounts are modelled as rationals; the cell-level parse results of
pandas (NaN or NaT on failure) are modelled as Option values. Rounding to
two decimals uses round half to even, matching the numpy rounding the script
applies through round(..., 2).
-/

namespace Dashboard

/-! ## Rounding to two decimals -/

/-- Round a rational to the nearest integer, ties to even (numpy rounding). -/
def roundHalfEven (x : ℚ) : ℤ :=
  if x - ⌊x⌋ < 1 / 2 then ⌊x⌋
  else if 1 / 2 < x - ⌊x⌋ then ⌊x⌋ + 1
  else if ⌊x⌋ % 2 = 0 then ⌊x⌋ else ⌊x⌋ + 1

/-- Embedding of round(value, 2) applied to the derived amount columns. -/
def round2 (x : ℚ) : ℚ := (roundHalfEven (100 * x) : ℚ) / 100

/-- A rational that carries at most two decimal digits. -/
def twoDecimals (q : ℚ) : Prop := ∃ n : ℤ, q = (n : ℚ) / 100

/-- A whole-cent amount: one hundred times it is an integer. -/
def isCents (x : ℚ) : Prop := ∃ n : ℤ, 100 * x = (n : ℚ)

/-! ## Data model -/

/-- A successfully parsed remittance date, reduced to the parts the script
uses: the year and the zero-based calendar month (0 = Jan .. 11 = Dec). -/
structure ParsedDate where
  year : Int
  month : Fin 12
deriving DecidableEq

/-- One cleaned row of remittance data: the date parsed, every amount column
coerced to a number (lines 35, 38-39 of dashboard.py). -/
structure ClaimRecord where
  remittanceDate : ParsedDate
  payerName : String
  submittedAmount : ℚ
  resubmittedAmount1 : ℚ
  resubmittedAmount2 : ℚ
  paidAmount : ℚ
  resubmissionPaidAmount1 : ℚ
  resubmissionPaidAmount2 : ℚ
  deniedAmount : ℚ
  resubmissionDeniedAmount1 : ℚ
  resubmissionDeniedAmount2 : ℚ
deriving DecidableEq

/-- One raw uploaded row before cleaning. Each cell holds its parse result:
none models a value pandas turns into NaN (for amounts, to_numeric with
errors coerce) or NaT (for the date, to_datetime with errors coerce). -/
structure RawRow where
  remittanceDate : Option ParsedDate
  payerName : String
  submittedAmount : Option ℚ
  resubmittedAmount1 : Option ℚ
  resubmittedAmount2 : Option ℚ
  paidAmount : Option ℚ
  resubmissionPaidAmount1 : Option ℚ
  resubmissionPaidAmount2 : Option ℚ
  deniedAmount : Option ℚ
  resubmissionDeniedAmount1 : Option ℚ
  resubmissionDeniedAmount2 : Option ℚ
deriving DecidableEq

/-! ## Validation (dashboard.py lines 20-28) -/

/-- Whitespace stripping of one column name, the str.strip of line 28:
leading and trailing whitespace characters are removed. -/
def stripChars (cs : List Char) : List Char :=
  ((cs.dropWhile Char.isWhitespace).reverse.dropWhile Char.isWhitespace).reverse

/-- The str.strip of line 28 on a column name. -/
def stripName (s : String) : String := String.mk (stripChars s.data)

/-- Line 21: the three required columns. -/
def required_cols : List String := ["Remittance_Date", "Payer_Name", "Paid_Amount"]

/-- Line 22: the required columns absent from the uploaded file, computed on
the column names exactly as uploaded (the strip of line 28 runs later). -/
def missing_cols (columns : List String) : List String :=
  required_cols.filter (fun c => decide (c ∉ columns))

/-! ## Cleaning and coercion (dashboard.py lines 31-39) -/

/-- Line 35: a cell that failed numeric parsing (NaN) is filled with 0. -/
def coerceAmount (v : Option ℚ) : ℚ := v.getD 0

/-- Lines 35-39 restricted to one row: amounts are coerced with unparseable
cells becoming 0, and the row survives exactly when its date parsed. -/
def cleanRow (raw : RawRow) : Option ClaimRecord :=
  match raw.remittanceDate with
  | none => none
  | some d =>
      some
        { remittanceDate := d
          payerName := raw.payerName
          submittedAmount := coerceAmount raw.submittedAmount
          resubmittedAmount1 := coerceAmount raw.resubmittedAmount1
          resubmittedAmount2 := coerceAmount raw.resubmittedAmount2
          paidAmount := coerceAmount raw.paidAmount
          resubmissionPaidAmount1 := coerceAmount raw.resubmissionPaidAmount1
          resubmissionPaidAmount2 := coerceAmount raw.resubmissionPaidAmount2
          deniedAmount := coerceAmount raw.deniedAmount
          resubmissionDeniedAmount1 := coerceAmount raw.resubmissionDeniedAmount1
          resubmissionDeniedAmount2 := coerceAmount raw.resubmissionDeniedAmount2 }

/-- Lines 35-39 over the whole upload: rows with an unparseable date are
dropped (dropna on Remittance_Date), the rest are cleaned. -/
def cleanRows (raws : List RawRow) : List ClaimRecord :=
  raws.filterMap cleanRow

/-! ## Date-part extraction (dashboard.py lines 42-44, 74) -/

/-- Line 74: the pivot column order Jan..Dec. -/
def month_order : List String :=
  ["Jan", "Feb", "Mar", "Apr", "May", "Jun", "Jul", "Aug", "Sep", "Oct", "Nov", "Dec"]

/-- Fallback never reached: month indices lie below the 12 entries. -/
def defaultMonth : String := "Jan"

/-- Line 42: the Remittance_Year column. -/
def remittanceYear (r : ClaimRecord) : Int := r.remittanceDate.year

/-- Line 43: the Remittance_Month column, the three-letter strftime name. -/
def remittanceMonth (r : ClaimRecord) : String :=
  month_order.getD r.remittanceDate.month.val defaultMonth

/-- Line 44: the Quarter column (1..4). -/
def quarterOf (r : ClaimRecord) : Nat := r.remittanceDate.month.val / 3 + 1

/-! ## Derived totals (dashboard.py lines 47-50) -/

/-- Line 47: the Total Submitted Amount column. -/
def totalSubmittedAmount (r : ClaimRecord) : ℚ :=
  round2 (r.submittedAmount + r.resubmittedAmount1 + r.resubmittedAmount2)

/-- Line 48: the Total Paid Amount column. -/
def totalPaidAmount (r : ClaimRecord) : ℚ :=
  round2 (r.paidAmount + r.resubmissionPaidAmount1 + r.resubmissionPaidAmount2)

/-- Line 49: the Total Denied Amount column. -/
def totalDeniedAmount (r : ClaimRecord) : ℚ :=
  round2 ((r.deniedAmount - r.resubmittedAmount1)
    + (r.resubmissionDeniedAmount1 - r.resubmittedAmount2)
    + r.resubmissionDeniedAmount2)

/-- Line 50: the Total Pending Amount column, computed from the already
rounded Total Paid and Total Denied columns. -/
def totalPendingAmount (r : ClaimRecord) : ℚ :=
  round2 (r.submittedAmount - (totalPaidAmount r + totalDeniedAmount r))

/-- The nine stored input amounts of a record are all non-negative. -/
def inputsNonneg (r : ClaimRecord) : Prop :=
  0 ≤ r.submittedAmount ∧ 0 ≤ r.resubmittedAmount1 ∧ 0 ≤ r.resubmittedAmount2 ∧
  0 ≤ r.paidAmount ∧ 0 ≤ r.resubmissionPaidAmount1 ∧ 0 ≤ r.resubmissionPaidAmount2 ∧
  0 ≤ r.deniedAmount ∧ 0 ≤ r.resubmissionDeniedAmount1 ∧ 0 ≤ r.resubmissionDeniedAmount2

/-- The nine stored input amounts of a record are all whole-cent values. -/
def wholeCents (r : ClaimRecord) : Prop :=
  isCents r.submittedAmount ∧ isCents r.resubmittedAmount1 ∧ isCents r.resubmittedAmount2 ∧
  isCents r.paidAmount ∧ isCents r.resubmissionPaidAmount1 ∧ isCents r.resubmissionPaidAmount2 ∧
  isCents r.deniedAmount ∧ isCents r.resubmissionDeniedAmount1 ∧
  isCents r.resubmissionDeniedAmount2

/-! ## Filter resolution (dashboard.py lines 56-71) -/

/-- One entry of a multiselect widget: the ALL wildcard or an explicit value. -/
inductive Sel (α : Type) where
  | all : Sel α
  | item : α → Sel α
deriving DecidableEq

/-- The explicit (non-wildcard) entries of a selection, in order. -/
def explicitItems {α : Type} (sel : List (Sel α)) : List α :=
  sel.filterMap (fun s => match s with | .all => none | .item v => some v)

/-- Lines 64-65: if ALL is selected use every distinct value, otherwise the
selected entries with the ALL sentinel removed. The same expression embeds
effective_year and effective_insurance. -/
def effectiveSelection {α : Type} [DecidableEq α] (distinct : List α) (sel : List (Sel α)) :
    List α :=
  if Sel.all ∈ sel then distinct else explicitItems sel

/-- Line 56: the distinct years of the cleaned data (unique on the column). -/
def distinctYears (rows : List ClaimRecord) : List Int :=
  (rows.map remittanceYear).dedup

/-- Line 60: the distinct payer names of the cleaned data. -/
def distinctPayers (rows : List ClaimRecord) : List String :=
  (rows.map (fun r => r.payerName)).dedup

/-- Lines 68-71: keep the rows whose year and payer lie in the effective
selections. -/
def filterRecords (rows : List ClaimRecord) (ys : List (Sel Int)) (ps : List (Sel String)) :
    List ClaimRecord :=
  rows.filter (fun r =>
    decide (remittanceYear r ∈ effectiveSelection (distinctYears rows) ys ∧
      r.payerName ∈ effectiveSelection (distinctPayers rows) ps))

/-! ## Aggregation (dashboard.py lines 74-84) -/

/-- Group keys compare ascending by year, ties by payer name: the order the
pandas groupby produces and the final sort by Remittance_Year keeps. -/
def keyLE (a b : Int × String) : Prop :=
  a.1 < b.1 ∨ (a.1 = b.1 ∧ a.2 ≤ b.2)

instance : DecidableRel keyLE := fun a b =>
  decidable_of_iff (a.1 < b.1 ∨ (a.1 = b.1 ∧ a.2 ≤ b.2)) Iff.rfl

instance : IsTotal (Int × String) keyLE where
  total a b := by
    rcases lt_trichotomy a.1 b.1 with h | h | h
    · exact Or.inl (Or.inl h)
    · rcases le_total a.2 b.2 with h2 | h2
      · exact Or.inl (Or.inr ⟨h, h2⟩)
      · exact Or.inr (Or.inr ⟨h.symm, h2⟩)
    · exact Or.inr (Or.inl h)

instance : IsTrans (Int × String) keyLE where
  trans a b c hab hbc := by
    rcases hab with h1 | ⟨h1, h1s⟩ <;> rcases hbc with h2 | ⟨h2, h2s⟩
    · exact Or.inl (h1.trans h2)
    · exact Or.inl (lt_of_lt_of_eq h1 h2)
    · exact Or.inl (lt_of_eq_of_lt h1 h2)
    · exact Or.inr ⟨h1.trans h2, h1s.trans h2s⟩

/-- The distinct (year, payer) group keys of the rows, in the sorted order
of the groupby output. -/
def groupKeys (rows : List ClaimRecord) : List (Int × String) :=
  List.insertionSort keyLE ((rows.map (fun r => (remittanceYear r, r.payerName))).dedup)

/-- Line 75: the summed Total Paid Amount of one (year, payer, month) cell;
a combination absent from the data sums an empty list, hence 0, matching
fill_value 0 of unstack and reindex. -/
def paidCell (rows : List ClaimRecord) (y : Int) (p m : String) : ℚ :=
  ((rows.filter (fun r =>
    decide (remittanceYear r = y ∧ r.payerName = p ∧ remittanceMonth r = m))).map
      totalPaidAmount).sum

/-- One row of the monthly paid matrix: the group key and the twelve month
columns in pivot order. -/
structure MatrixRow where
  year : Int
  payer : String
  monthCols : List (String × ℚ)
deriving DecidableEq

/-- Lines 75-76: the monthly paid matrix grouped_paid, one row per distinct
(year, payer) in sorted order, reindexed to the twelve calendar months. -/
def grouped_paid (rows : List ClaimRecord) : List MatrixRow :=
  (groupKeys rows).map (fun k =>
    { year := k.1
      payer := k.2
      monthCols := month_order.map (fun m => (m, paidCell rows k.1 k.2 m)) })

/-- The summed value of one derived column over one (year, payer) group. -/
def sumCell (rows : List ClaimRecord) (f : ClaimRecord → ℚ) (y : Int) (p : String) : ℚ :=
  ((rows.filter (fun r => decide (remittanceYear r = y ∧ r.payerName = p))).map f).sum

/-- One row of the summary table of lines 79-84. -/
structure SummaryRow where
  year : Int
  payer : String
  Total_Submitted : ℚ
  Total_Paid : ℚ
  Total_Denied : ℚ
  Total_Pending : ℚ
deriving DecidableEq

/-- Lines 79-84: the summary table, one row per distinct (year, payer) in
sorted order, summing the four derived totals. -/
def summary_table (rows : List ClaimRecord) : List SummaryRow :=
  (groupKeys rows).map (fun k =>
    { year := k.1
      payer := k.2
      Total_Submitted := sumCell rows totalSubmittedAmount k.1 k.2
      Total_Paid := sumCell rows totalPaidAmount k.1 k.2
      Total_Denied := sumCell rows totalDeniedAmount k.1 k.2
      Total_Pending := sumCell rows totalPendingAmount k.1 k.2 })

/-! ## The pipeline end to end (dashboard.py lines 20-84) -/

/-- What the pipeline hands the presentation layer when validation passes. -/
structure PipelineOutput where
  columnNames : List String
  cleaned : List ClaimRecord
  matrix : List MatrixRow
  summary : List SummaryRow
deriving DecidableEq

/-- Lines 20-84 in order: the required-column check on the raw column names,
then (only when it passes) the strip of the column names, the cleaning, the
filter and the two aggregations. A failed check carries the missing columns
and nothing further runs. -/
def runPipeline (columns : List String) (raws : List RawRow)
    (ys : List (Sel Int)) (ps : List (Sel String)) :
    Except (List String) PipelineOutput :=
  if missing_cols columns = [] then
    .ok
      { columnNames := columns.map stripName
        cleaned := cleanRows raws
        matrix := grouped_paid (filterRecords (cleanRows raws) ys ps)
        summary := summary_table (filterRecords (cleanRows raws) ys ps) }
  else .error (missing_cols columns)

/-! ## Export control flow (dashboard.py lines 209-219)

The three statements that touch the export file inside the try block: the
ExcelWriter block that writes it, the download-button hand-off, and the
os.remove call. A raised exception transfers control to the except handler
of line 221, skipping every later statement of the try block. -/

inductive ExportStmt where
  | writeFile : ExportStmt
  | handoff : ExportStmt
  | removeFile : ExportStmt
deriving DecidableEq

/-- Lines 209-219 as a statement list. -/
def exportScript : List ExportStmt := [.writeFile, .handoff, .removeFile]

/-- Observable state of one export run. -/
structure ExportState where
  fileExists : Bool
  raised : Bool
  delivered : Bool
deriving DecidableEq

def initExportState : ExportState := ⟨false, false, false⟩

/-- One statement: skipped when an exception is pending, otherwise its
effect. handoffFails says whether the download hand-off raises. -/
def execExportStmt (handoffFails : Bool) (s : ExportState) : ExportStmt → ExportState
  | .writeFile => if s.raised then s else { s with fileExists := true }
  | .handoff =>
      if s.raised then s
      else if handoffFails then { s with raised := true }
      else { s with delivered := true }
  | .removeFile => if s.raised then s else { s with fileExists := false }

/-- The export section executed from a clean state. -/
def runExport (handoffFails : Bool) : ExportState :=
  exportScript.foldl (execExportStmt handoffFails) initExportState

/-! ## Concrete inputs used by counterexamples and witnesses -/

def dateMar2021 : ParsedDate := ⟨2021, 2⟩

/-- All-zero record on the March 2021 date, the base of the concrete inputs. -/
def baseRecord : ClaimRecord :=
  { remittanceDate := dateMar2021
    payerName := "Acme"
    submittedAmount := 0
    resubmittedAmount1 := 0
    resubmittedAmount2 := 0
    paidAmount := 0
    resubmissionPaidAmount1 := 0
    resubmissionPaidAmount2 := 0
    deniedAmount := 0
    resubmissionDeniedAmount1 := 0
    resubmissionDeniedAmount2 := 0 }

/-- Submitted 100 with resubmitted_amount_1 equal to 10: the totals identity
of the spec fails here. -/
def rcResub : ClaimRecord :=
  { baseRecord with submittedAmount := 100, resubmittedAmount1 := 10 }

/-- Every input 0 except resubmitted_amount_1 equal to 10: the derived
Total Denied Amount is negative. -/
def rcDeniedNeg : ClaimRecord := { baseRecord with resubmittedAmount1 := 10 }

/-- Every input 0 except paid_amount equal to 10: the derived Total Pending
Amount is negative. -/
def rcPendingNeg : ClaimRecord := { baseRecord with paidAmount := 10 }

/-- A raw row with a valid date whose paid_amount cell failed numeric
parsing (for example the text abc), every other amount parsed. -/
def rawAbc : RawRow :=
  { remittanceDate := some dateMar2021
    payerName := "Acme"
    submittedAmount := some 100
    resubmittedAmount1 := some 0
    resubmittedAmount2 := some 0
    paidAmount := none
    resubmissionPaidAmount1 := some 0
    resubmissionPaidAmount2 := some 0
    deniedAmount := some 20
    resubmissionDeniedAmount1 := some 0
    resubmissionDeniedAmount2 := some 0 }

/-! ## Helper lemmas -/

theorem roundHalfEven_intCast (n : ℤ) : roundHalfEven (n : ℚ) = n := by
  unfold roundHalfEven
  simp only [Int.floor_intCast, sub_self]
  norm_num

theorem round2_eq_self {x : ℚ} (h : isCents x) : round2 x = x := by
  obtain ⟨n, hn⟩ := h
  unfold round2
  rw [hn, roundHalfEven_intCast, ← hn]
  exact mul_div_cancel_left₀ x (by norm_num)

theorem isCents.add {x y : ℚ} (hx : isCents x) (hy : isCents y) : isCents (x + y) := by
  obtain ⟨m, hm⟩ := hx
  obtain ⟨n, hn⟩ := hy
  exact ⟨m + n, by rw [mul_add, hm, hn]; push_cast; ring⟩

theorem isCents.sub {x y : ℚ} (hx : isCents x) (hy : isCents y) : isCents (x - y) := by
  obtain ⟨m, hm⟩ := hx
  obtain ⟨n, hn⟩ := hy
  exact ⟨m - n, by rw [mul_sub, hm, hn]; push_cast; ring⟩

theorem groupKeys_mem (rows : List ClaimRecord) (y : Int) (p : String) :
    (y, p) ∈ groupKeys rows ↔ ∃ r ∈ rows, remittanceYear r = y ∧ r.payerName = p := by
  unfold groupKeys
  rw [(List.perm_insertionSort keyLE _).mem_iff, List.mem_dedup, List.mem_map]
  constructor
  · rintro ⟨r, hr, hk⟩
    exact ⟨r, hr, congrArg Prod.fst hk, congrArg Prod.snd hk⟩
  · rintro ⟨r, hr, hy, hp⟩
    exact ⟨r, hr, by rw [hy, hp]⟩

theorem groupKeys_sorted (rows : List ClaimRecord) :
    List.Sorted keyLE (groupKeys rows) :=
  List.sorted_insertionSort keyLE _

theorem map_fst_pairs {α β : Type} (f : α → β) (l : List α) :
    (l.map (fun m => (m, f m))).map Prod.fst = l := by
  induction l with
  | nil => rfl
  | cons a t ih => simp [ih]

theorem paidCell_of_absent {rows : List ClaimRecord} {y : Int} {p m : String}
    (h : ∀ r ∈ rows, ¬(remittanceYear r = y ∧ r.payerName = p ∧ remittanceMonth r = m)) :
    paidCell rows y p m = 0 := by
  unfold paidCell
  rw [List.filter_eq_nil_iff.mpr (fun a ha => by simpa using h a ha)]
  rfl

/-! ## Claim theorems -/

/-- C2: the metric deriver is a pure function of one cleaned record that
computes the four totals exactly per the formulas of the spec, the pending
total from the already rounded paid and denied totals, and each result
carries exactly two decimal places. -/
theorem metric_deriver_spec (r : ClaimRecord) :
    totalSubmittedAmount r =
        round2 (r.submittedAmount + r.resubmittedAmount1 + r.resubmittedAmount2) ∧
      totalPaidAmount r =
        round2 (r.paidAmount + r.resubmissionPaidAmount1 + r.resubmissionPaidAmount2) ∧
      totalDeniedAmount r =
        round2 ((r.deniedAmount - r.resubmittedAmount1)
          + (r.resubmissionDeniedAmount1 - r.resubmittedAmount2)
          + r.resubmissionDeniedAmount2) ∧
      totalPendingAmount r =
        round2 (r.submittedAmount - (totalPaidAmount r + totalDeniedAmount r)) ∧
      twoDecimals (totalSubmittedAmount r) ∧ twoDecimals (totalPaidAmount r) ∧
      twoDecimals (totalDeniedAmount r) ∧ twoDecimals (totalPendingAmount r) :=
  ⟨rfl, rfl, rfl, rfl, ⟨_, rfl⟩, ⟨_, rfl⟩, ⟨_, rfl⟩, ⟨_, rfl⟩⟩

/-- C1 counterexample: on a record with submitted 100 and resubmitted_amount_1
equal to 10 (all other inputs 0) the accounting identity of the spec fails:
the left side is 120 and the right side 110. -/
theorem totals_identity_counterexample :
    totalSubmittedAmount rcResub - totalPaidAmount rcResub - totalDeniedAmount rcResub ≠
      totalPendingAmount rcResub := by
  have hTS : totalSubmittedAmount rcResub = 110 := by
    simp only [totalSubmittedAmount, rcResub, baseRecord]
    norm_num [round2, roundHalfEven]
  have hTP : totalPaidAmount rcResub = 0 := by
    simp only [totalPaidAmount, rcResub, baseRecord]
    norm_num [round2, roundHalfEven]
  have hTD : totalDeniedAmount rcResub = -10 := by
    simp only [totalDeniedAmount, rcResub, baseRecord]
    norm_num [round2, roundHalfEven]
  have hTPe : totalPendingAmount rcResub = 110 := by
    simp only [totalPendingAmount]
    rw [hTP, hTD]
    simp only [rcResub, baseRecord]
    norm_num [round2, roundHalfEven]
  rw [hTS, hTP, hTD, hTPe]
  norm_num

/-- C1 amended: for whole-cent inputs the derived totals satisfy
total_submitted - total_paid - total_denied
= total_pending + resubmitted_amount_1 + resubmitted_amount_2, so the
identity claimed by the spec holds exactly when the two resubmitted amounts
sum to zero. -/
theorem totals_identity_amended (r : ClaimRecord) (h : wholeCents r) :
    totalSubmittedAmount r - totalPaidAmount r - totalDeniedAmount r =
      totalPendingAmount r + r.resubmittedAmount1 + r.resubmittedAmount2 := by
  obtain ⟨hS, hR1, hR2, hP, hP1, hP2, hD, hD1, hD2⟩ := h
  unfold totalPendingAmount totalSubmittedAmount totalPaidAmount totalDeniedAmount
  rw [round2_eq_self ((hP.add hP1).add hP2),
    round2_eq_self (((hD.sub hR1).add (hD1.sub hR2)).add hD2),
    round2_eq_self ((hS.add hR1).add hR2),
    round2_eq_self (hS.sub (((hP.add hP1).add hP2).add
      (((hD.sub hR1).add (hD1.sub hR2)).add hD2)))]
  ring

/-- C1 amended, witness: the whole-cent record rcResub instantiates the
amended identity. -/
theorem totals_identity_amended_witness :
    wholeCents rcResub ∧
      totalSubmittedAmount rcResub - totalPaidAmount rcResub - totalDeniedAmount rcResub =
        totalPendingAmount rcResub + rcResub.resubmittedAmount1 + rcResub.resubmittedAmount2 := by
  have hw : wholeCents rcResub := by
    simp only [wholeCents, isCents, rcResub, baseRecord]
    refine ⟨⟨10000, by norm_num⟩, ⟨1000, by norm_num⟩, ⟨0, by norm_num⟩, ⟨0, by norm_num⟩,
      ⟨0, by norm_num⟩, ⟨0, by norm_num⟩, ⟨0, by norm_num⟩, ⟨0, by norm_num⟩, ⟨0, by norm_num⟩⟩
  exact ⟨hw, totals_identity_amended rcResub hw⟩

/-- C4: the filter resolver, applied independently to years and payers,
expands a selection containing ALL to the full distinct set (ignoring
co-selected explicit items) and keeps exactly the explicit items otherwise;
selecting ALL together with 2021 equals selecting ALL alone. -/
theorem filter_resolver_spec (dy : List Int) (sy : List (Sel Int))
    (dp : List String) (sp : List (Sel String)) :
    (Sel.all ∈ sy → effectiveSelection dy sy = dy) ∧
      (Sel.all ∉ sy → effectiveSelection dy sy = explicitItems sy) ∧
      (Sel.all ∈ sp → effectiveSelection dp sp = dp) ∧
      (Sel.all ∉ sp → effectiveSelection dp sp = explicitItems sp) ∧
      effectiveSelection dy [Sel.all, Sel.item 2021] = effectiveSelection dy [Sel.all] := by
  refine ⟨fun h => ?_, fun h => ?_, fun h => ?_, fun h => ?_, ?_⟩
  · simp [effectiveSelection, h]
  · simp [effectiveSelection, h]
  · simp [effectiveSelection, h]
  · simp [effectiveSelection, h]
  · simp [effectiveSelection]

/-- C7: on an empty filtered record set both aggregations return empty
tables (their row schemas are fixed by the MatrixRow and SummaryRow types),
and the filter of an empty cleaned set is empty; no error arises, the
functions being total. -/
theorem empty_filtered_aggregates (ys : List (Sel Int)) (ps : List (Sel String)) :
    grouped_paid [] = [] ∧ summary_table [] = [] ∧ filterRecords [] ys ps = [] :=
  ⟨rfl, rfl, rfl⟩

/-- C9 counterexample: in the export run where the download hand-off raises,
the exception skips the os.remove of line 219, so the spreadsheet file is
still on disk afterwards, refuting unconditional deletion. -/
theorem export_cleanup_counterexample :
    (runExport true).raised = true ∧ (runExport true).fileExists = true := by
  exact ⟨rfl, rfl⟩

/-- C9 amended: the export file is deleted when the hand-off succeeds, but
when the hand-off raises the removal statement is skipped and the file
remains on disk. -/
theorem export_cleanup_amended :
    ((runExport false).delivered = true ∧ (runExport false).fileExists = false) ∧
      ((runExport true).raised = true ∧ (runExport true).fileExists = true) :=
  ⟨⟨rfl, rfl⟩, ⟨rfl, rfl⟩⟩

/-- C10: the derived totals are not guaranteed non-negative on non-negative
inputs: a record with only resubmitted_amount_1 positive has a negative
Total Denied Amount, and a record with only paid_amount positive has a
negative Total Pending Amount. -/
theorem totals_can_be_negative :
    (inputsNonneg rcDeniedNeg ∧ totalDeniedAmount rcDeniedNeg < 0) ∧
      (inputsNonneg rcPendingNeg ∧ totalPendingAmount rcPendingNeg < 0) := by
  refine ⟨⟨?_, ?_⟩, ⟨?_, ?_⟩⟩
  · simp only [inputsNonneg, rcDeniedNeg, baseRecord]
    norm_num
  · have hTD : totalDeniedAmount rcDeniedNeg = -10 := by
      simp only [totalDeniedAmount, rcDeniedNeg, baseRecord]
      norm_num [round2, roundHalfEven]
    rw [hTD]
    norm_num
  · simp only [inputsNonneg, rcPendingNeg, baseRecord]
    norm_num
  · have hTP : totalPaidAmount rcPendingNeg = 10 := by
      simp only [totalPaidAmount, rcPendingNeg, baseRecord]
      norm_num [round2, roundHalfEven]
    have hTD : totalDeniedAmount rcPendingNeg = 0 := by
      simp only [totalDeniedAmount, rcPendingNeg, baseRecord]
      norm_num [round2, roundHalfEven]
    have hTPe : totalPendingAmount rcPendingNeg = -10 := by
      simp only [totalPendingAmount]
      rw [hTP, hTD]
      simp only [rcPendingNeg, baseRecord]
      norm_num [round2, roundHalfEven]
    rw [hTPe]
    norm_num

/-- C3 counterexample: with the date column name carrying a leading blank,
the stripped column names contain every required column, yet the pipeline
fails naming Remittance_Date missing — so the presence check runs on the raw
names, not after trimming. -/
theorem validator_trim_counterexample :
    runPipeline [" Remittance_Date", "Payer_Name", "Paid_Amount"] [] [] [] =
        .error ["Remittance_Date"] ∧
      missing_cols ([" Remittance_Date", "Payer_Name", "Paid_Amount"].map stripName) = [] := by
  constructor
  · rfl
  · decide

/-- C3 amended: the validator checks the three required columns against the
column names exactly as uploaded (the whitespace strip runs only after the
check passes); whenever any required column is absent the pipeline stops
with an error naming exactly the missing columns and performs no coercion,
derivation or aggregation. -/
theorem validator_missing_halts (cols : List String) (raws : List RawRow)
    (ys : List (Sel Int)) (ps : List (Sel String)) (h : missing_cols cols ≠ []) :
    runPipeline cols raws ys ps = .error (missing_cols cols) ∧
      ∀ c, c ∈ missing_cols cols ↔ (c ∈ required_cols ∧ c ∉ cols) := by
  constructor
  · unfold runPipeline
    rw [if_neg h]
  · intro c
    simp [missing_cols, List.mem_filter]

/-- C3 amended, witness: a file holding only Payer_Name is rejected with the
two missing required columns. -/
theorem validator_missing_halts_witness :
    missing_cols ["Payer_Name"] ≠ [] ∧
      runPipeline ["Payer_Name"] [] [] [] = .error (missing_cols ["Payer_Name"]) := by
  have h : missing_cols ["Payer_Name"] ≠ [] := by decide
  exact ⟨h, (validator_missing_halts ["Payer_Name"] [] [] [] h).1⟩

/-- C5: cleaning drops every row whose date failed to parse: a raw row with
no parsed date cleans to nothing, every cleaned record stems from a raw row
whose date parsed, the filtered set only holds cleaned records, and every
aggregate row of either table stems from a cleaned record. -/
theorem cleaned_dates_invariant (raws : List RawRow) (ys : List (Sel Int))
    (ps : List (Sel String)) :
    (∀ raw : RawRow, raw.remittanceDate = none → cleanRow raw = none) ∧
      (∀ rec ∈ cleanRows raws, ∃ raw ∈ raws, raw.remittanceDate = some rec.remittanceDate) ∧
      (∀ rec ∈ filterRecords (cleanRows raws) ys ps, rec ∈ cleanRows raws) ∧
      (∀ mr ∈ grouped_paid (filterRecords (cleanRows raws) ys ps),
        ∃ rec ∈ filterRecords (cleanRows raws) ys ps,
          remittanceYear rec = mr.year ∧ rec.payerName = mr.payer) ∧
      (∀ sr ∈ summary_table (filterRecords (cleanRows raws) ys ps),
        ∃ rec ∈ filterRecords (cleanRows raws) ys ps,
          remittanceYear rec = sr.year ∧ rec.payerName = sr.payer) := by
  refine ⟨?_, ?_, ?_, ?_, ?_⟩
  · intro raw h
    simp [cleanRow, h]
  · intro rec hrec
    obtain ⟨raw, hraw, hc⟩ := List.mem_filterMap.mp hrec
    refine ⟨raw, hraw, ?_⟩
    unfold cleanRow at hc
    cases hd : raw.remittanceDate with
    | none => rw [hd] at hc; cases hc
    | some d =>
        rw [hd] at hc
        injection hc with h
        rw [← h]
  · intro rec h
    exact (List.mem_filter.mp h).1
  · intro mr hmr
    obtain ⟨k, hk, rfl⟩ := List.mem_map.mp hmr
    obtain ⟨r, hr, hy, hp⟩ := (groupKeys_mem _ k.1 k.2).mp hk
    exact ⟨r, hr, hy, hp⟩
  · intro sr hsr
    obtain ⟨k, hk, rfl⟩ := List.mem_map.mp hsr
    obtain ⟨r, hr, hy, hp⟩ := (groupKeys_mem _ k.1 k.2).mp hk
    exact ⟨r, hr, hy, hp⟩

/-- C6: every row of the monthly paid matrix carries exactly the twelve
month columns in calendar order, each cell is the grouped sum of Total Paid
Amount for its (year, payer, month) with absent combinations 0, rows are
pairwise ascending by year, and the rows are exactly the distinct
(year, payer) pairs of the filtered data. -/
theorem monthly_matrix_spec (rows : List ClaimRecord) (h : rows ≠ []) :
    (∀ mr ∈ grouped_paid rows,
        mr.monthCols.map Prod.fst = month_order ∧
          mr.monthCols.length = 12 ∧
          (∀ m v, (m, v) ∈ mr.monthCols → v = paidCell rows mr.year mr.payer m) ∧
          (∀ m v, (m, v) ∈ mr.monthCols →
            (∀ r ∈ rows, ¬(remittanceYear r = mr.year ∧ r.payerName = mr.payer ∧
              remittanceMonth r = m)) → v = 0)) ∧
      List.Pairwise (fun a b : MatrixRow => a.year ≤ b.year) (grouped_paid rows) ∧
      (∀ y p, (∃ mr ∈ grouped_paid rows, mr.year = y ∧ mr.payer = p) ↔
        ∃ r ∈ rows, remittanceYear r = y ∧ r.payerName = p) := by
  refine ⟨?_, ?_, ?_⟩
  · intro mr hmr
    obtain ⟨k, hk, rfl⟩ := List.mem_map.mp hmr
    refine ⟨?_, ?_, ?_, ?_⟩
    · exact map_fst_pairs _ month_order
    · simp [month_order]
    · intro m v hmv
      obtain ⟨m2, hm2, heq⟩ := List.mem_map.mp hmv
      injection heq with e1 e2
      rw [← e1, ← e2]
    · intro m v hmv habs
      obtain ⟨m2, hm2, heq⟩ := List.mem_map.mp hmv
      injection heq with e1 e2
      rw [← e2, e1]
      exact paidCell_of_absent (fun r hr hcon => habs r hr hcon)
  · unfold grouped_paid
    exact (groupKeys_sorted rows).map _ (fun a b hab => by
      rcases hab with h1 | ⟨h1, _⟩
      · exact le_of_lt h1
      · exact le_of_eq h1)
  · intro y p
    constructor
    · rintro ⟨mr, hmr, hy, hp⟩
      obtain ⟨k, hk, rfl⟩ := List.mem_map.mp hmr
      apply (groupKeys_mem rows y p).mp
      rw [← hy, ← hp]
      exact hk
    · rintro ⟨r, hr, hy, hp⟩
      exact ⟨_, List.mem_map.mpr ⟨(y, p), (groupKeys_mem rows y p).mpr ⟨r, hr, hy, hp⟩, rfl⟩,
        rfl, rfl⟩

/-- C6 witness: the matrix of the one-record set keeps the twelve ordered
month columns. -/
theorem monthly_matrix_spec_witness :
    ([baseRecord] : List ClaimRecord) ≠ [] ∧
      ∀ mr ∈ grouped_paid [baseRecord], mr.monthCols.map Prod.fst = month_order := by
  have h : ([baseRecord] : List ClaimRecord) ≠ [] := by simp
  exact ⟨h, fun mr hmr => ((monthly_matrix_spec [baseRecord] h).1 mr hmr).1⟩

/-- C8: a raw row whose date parsed is always kept, each of its nine amount
cells coerced with the unparseable ones (none) becoming 0 and no error
raised — the cleaning functions are total. -/
theorem coercion_leniency (raw : RawRow) (d : ParsedDate)
    (h : raw.remittanceDate = some d) :
    ∃ rec : ClaimRecord, cleanRow raw = some rec ∧
      rec.remittanceDate = d ∧
      rec.payerName = raw.payerName ∧
      rec.submittedAmount = coerceAmount raw.submittedAmount ∧
      rec.resubmittedAmount1 = coerceAmount raw.resubmittedAmount1 ∧
      rec.resubmittedAmount2 = coerceAmount raw.resubmittedAmount2 ∧
      rec.paidAmount = coerceAmount raw.paidAmount ∧
      rec.resubmissionPaidAmount1 = coerceAmount raw.resubmissionPaidAmount1 ∧
      rec.resubmissionPaidAmount2 = coerceAmount raw.resubmissionPaidAmount2 ∧
      rec.deniedAmount = coerceAmount raw.deniedAmount ∧
      rec.resubmissionDeniedAmount1 = coerceAmount raw.resubmissionDeniedAmount1 ∧
      rec.resubmissionDeniedAmount2 = coerceAmount raw.resubmissionDeniedAmount2 ∧
      (raw.paidAmount = none → rec.paidAmount = 0) := by
  refine ⟨{ remittanceDate := d
            payerName := raw.payerName
            submittedAmount := coerceAmount raw.submittedAmount
            resubmittedAmount1 := coerceAmount raw.resubmittedAmount1
            resubmittedAmount2 := coerceAmount raw.resubmittedAmount2
            paidAmount := coerceAmount raw.paidAmount
            resubmissionPaidAmount1 := coerceAmount raw.resubmissionPaidAmount1
            resubmissionPaidAmount2 := coerceAmount raw.resubmissionPaidAmount2
            deniedAmount := coerceAmount raw.deniedAmount
            resubmissionDeniedAmount1 := coerceAmount raw.resubmissionDeniedAmount1
            resubmissionDeniedAmount2 := coerceAmount raw.resubmissionDeniedAmount2 },
    ?_, rfl, rfl, rfl, rfl, rfl, rfl, rfl, rfl, rfl, rfl, rfl, fun h0 => ?_⟩
  · simp [cleanRow, h]
  · simp [coerceAmount, h0]

/-- C8 witness: the row whose paid_amount cell failed numeric parsing is
kept with paid_amount 0. -/
theorem coercion_leniency_witness :
    rawAbc.remittanceDate = some dateMar2021 ∧
      ∃ rec : ClaimRecord, cleanRow rawAbc = some rec ∧ rec.paidAmount = 0 := by
  obtain ⟨rec, h1, _, _, _, _, _, _, _, _, _, _, _, habc⟩ :=
    coercion_leniency rawAbc dateMar2021 rfl
  exact ⟨rfl, rec, h1, habc rfl⟩

end Dashboard
